import Mathlib

/-!
Shallow embedding of the Symptom-Checker-Chatbot backend (src/app.py).

Strings are modelled as `List Char`.  Python's `str.lower()` is modelled as
ASCII-range lowercasing (the only case the table's keywords exercise), the
`in` substring operator as `containsSub`, the `set` of conditions as a
duplicate-free list built by insert-if-absent (Python sets are unordered;
every property stated below is order-insensitive), and `" ".join` as
`joinSpace`.  The symptom table is transcribed entry by entry in declaration
order, which is the iteration order of a Python dict.
-/

/-- Strings of the Python program, as lists of characters. -/
abbrev Str := List Char

/-- Conversion from a Lean string literal to the model's string type. -/
def strL (s : String) : Str := s.data

/-- ASCII-range lowercasing of one character, modelling `str.lower()`. -/
def lowerChar (c : Char) : Char :=
  if 65 ≤ c.toNat ∧ c.toNat ≤ 90 then Char.ofNat (c.toNat + 32) else c

/-- Lowercasing of a whole string: `symptom_text.lower()` in app.py line 100. -/
def lowerStr (s : Str) : Str := s.map lowerChar

/-- Boolean test that the first list is an initial segment of the second. -/
def isPrefixL : Str → Str → Bool
  | [], _ => true
  | _ :: _, [] => false
  | a :: as, b :: bs => (a == b) && isPrefixL as bs

/-- Boolean contiguous-substring test, modelling Python's `needle in haystack`
for strings (app.py line 109: `if symptom in symptom_text`). -/
def containsSub (needle : Str) (haystack : Str) : Bool :=
  match haystack with
  | [] => isPrefixL needle []
  | _ :: t => isPrefixL needle haystack || containsSub needle t

/-- Python's `" ".join(l)`: the elements of `l` concatenated with a single
space between consecutive elements (app.py line 129). -/
def joinSpace : List Str → Str
  | [] => []
  | [a] => a
  | a :: b :: rest => a ++ ' ' :: joinSpace (b :: rest)

/-- One value of the SYMPTOM_DATABASE dict in app.py lines 15-87:
conditions list, advice text and urgency flag, together with the keyword
that keys it (Python dict keys are unique; declaration order is kept by
listing the entries in order in `SYMPTOM_DATABASE`). -/
structure Entry where
  keyword : Str
  conditions : List Str
  advice : Str
  urgent : Bool
deriving DecidableEq

/-- Return value of `analyze_symptoms` (the dict built at app.py lines
121-126 or 131-135).  `conditions` models Python's `list(all_conditions)`:
same elements, free of duplicates; its order carries no meaning. -/
structure AnalysisResult where
  conditions : List Str
  advice : Str
  urgent : Bool
deriving DecidableEq

def headacheEntry : Entry :=
  { keyword := strL "headache"
  , conditions := [strL "Tension Headache", strL "Migraine", strL "Sinus Headache"]
  , advice := strL "Rest in a quiet, dark room. Stay hydrated. Consider over-the-counter pain relievers like ibuprofen or acetaminophen."
  , urgent := false }

def migraineEntry : Entry :=
  { keyword := strL "migraine"
  , conditions := [strL "Migraine", strL "Cluster Headache"]
  , advice := strL "Lie down in a dark, quiet room. Apply cold compress to forehead. Avoid bright lights and loud noises."
  , urgent := false }

def feverEntry : Entry :=
  { keyword := strL "fever"
  , conditions := [strL "Common Cold", strL "Flu", strL "COVID-19", strL "Bacterial Infection"]
  , advice := strL "Rest, stay hydrated, and monitor temperature. Take acetaminophen or ibuprofen for fever. Seek medical attention if fever persists above 103°F (39.4°C)."
  , urgent := false }

def highFeverEntry : Entry :=
  { keyword := strL "high fever"
  , conditions := [strL "Severe Infection", strL "COVID-19", strL "Bacterial Infection"]
  , advice := strL "Seek immediate medical attention. High fever can be dangerous, especially in children and elderly."
  , urgent := true }

def chestPainEntry : Entry :=
  { keyword := strL "chest pain"
  , conditions := [strL "Heart Attack", strL "Angina", strL "Pneumonia", strL "Costochondritis"]
  , advice := strL "This is a medical emergency. Call emergency services immediately. Do not drive yourself to the hospital."
  , urgent := true }

def chestTightnessEntry : Entry :=
  { keyword := strL "chest tightness"
  , conditions := [strL "Heart Attack", strL "Angina", strL "Anxiety", strL "Asthma"]
  , advice := strL "Seek immediate medical attention. Chest tightness can indicate serious heart or lung problems."
  , urgent := true }

def shortnessOfBreathEntry : Entry :=
  { keyword := strL "shortness of breath"
  , conditions := [strL "Asthma", strL "Pneumonia", strL "COVID-19", strL "Anxiety", strL "Heart Problem"]
  , advice := strL "Seek medical attention immediately. Difficulty breathing is a serious symptom that requires prompt evaluation."
  , urgent := true }

def coughEntry : Entry :=
  { keyword := strL "cough"
  , conditions := [strL "Common Cold", strL "Flu", strL "COVID-19", strL "Bronchitis", strL "Pneumonia"]
  , advice := strL "Stay hydrated, rest, and monitor symptoms. Seek medical attention if cough is severe or accompanied by fever."
  , urgent := false }

def stomachPainEntry : Entry :=
  { keyword := strL "stomach pain"
  , conditions := [strL "Gastritis", strL "Food Poisoning", strL "Appendicitis", strL "Irritable Bowel Syndrome"]
  , advice := strL "Rest, stay hydrated, and avoid solid foods initially. Seek medical attention if pain is severe or persistent."
  , urgent := false }

def severeAbdominalPainEntry : Entry :=
  { keyword := strL "severe abdominal pain"
  , conditions := [strL "Appendicitis", strL "Gallbladder Disease", strL "Bowel Obstruction", strL "Kidney Stones"]
  , advice := strL "Seek immediate medical attention. Severe abdominal pain can indicate a serious condition requiring surgery."
  , urgent := true }

def dizzinessEntry : Entry :=
  { keyword := strL "dizziness"
  , conditions := [strL "Vertigo", strL "Dehydration", strL "Low Blood Pressure", strL "Inner Ear Problem"]
  , advice := strL "Sit or lie down to prevent falls. Stay hydrated. Seek medical attention if dizziness is severe or accompanied by other symptoms."
  , urgent := false }

def nauseaEntry : Entry :=
  { keyword := strL "nausea"
  , conditions := [strL "Food Poisoning", strL "Gastritis", strL "Migraine", strL "Pregnancy", strL "Viral Infection"]
  , advice := strL "Stay hydrated with small sips of water. Rest and avoid solid foods. Seek medical attention if severe or persistent."
  , urgent := false }

/-- The SYMPTOM_DATABASE dict (app.py lines 15-87) in declaration order. -/
def SYMPTOM_DATABASE : List Entry :=
  [ headacheEntry, migraineEntry, feverEntry, highFeverEntry, chestPainEntry
  , chestTightnessEntry, shortnessOfBreathEntry, coughEntry, stomachPainEntry
  , severeAbdominalPainEntry, dizzinessEntry, nauseaEntry ]

/-- Loop state of `analyze_symptoms`: `all_conditions`, `all_advice`,
`is_urgent` (app.py lines 103-105).  `all_conditions` models the Python
set as a duplicate-free list: `updateConds` adds only missing elements. -/
structure LoopState where
  all_conditions : List Str
  all_advice : List Str
  is_urgent : Bool
deriving DecidableEq

/-- Adding one condition to the set: a no-op when already present
(`set.update` semantics of app.py line 111). -/
def insertCond (acc : List Str) (c : Str) : List Str :=
  if c ∈ acc then acc else acc ++ [c]

/-- Python's `all_conditions.update(data["conditions"])` (app.py line 111). -/
def updateConds (acc : List Str) (cs : List Str) : List Str :=
  cs.foldl insertCond acc

/-- One iteration of the loop at app.py lines 108-118. -/
def step (text : Str) (st : LoopState) (e : Entry) : LoopState :=
  if containsSub e.keyword text then
    { all_conditions := updateConds st.all_conditions e.conditions
    , all_advice := st.all_advice ++ [e.advice]
    , is_urgent := st.is_urgent || e.urgent }
  else st

/-- The fixed fallback result returned at app.py lines 121-126 when
`all_conditions` is empty. -/
def fallbackResult : AnalysisResult :=
  { conditions := [strL "General Consultation Recommended"]
  , advice := strL "Your symptoms don\x27t match our database. Please consult with a healthcare provider for proper evaluation."
  , urgent := false }

/-- The matcher `analyze_symptoms` of app.py lines 89-135: lowercase the
input, fold the loop over the table, then either the fallback or the
accumulated result. -/
def analyze_symptoms (symptom_text : Str) : AnalysisResult :=
  let text := lowerStr symptom_text
  let st := SYMPTOM_DATABASE.foldl (step text) ⟨[], [], false⟩
  if st.all_conditions = [] then
    fallbackResult
  else
    { conditions := st.all_conditions
    , advice := joinSpace st.all_advice
    , urgent := st.is_urgent }

example : (analyze_symptoms (strL "I have a headache")).conditions =
    [strL "Tension Headache", strL "Migraine", strL "Sinus Headache"] := by decide

example : analyze_symptoms (strL "purple spots on my elbow") = fallbackResult := by decide

example : (analyze_symptoms (strL "chest pain and FEVER")).urgent = true := by decide

/-! ### Substring and lowercasing lemmas -/

theorem isPrefixL_iff (n h : Str) : isPrefixL n h = true ↔ ∃ t, h = n ++ t := by
  induction n generalizing h with
  | nil => simp [isPrefixL]
  | cons a as ih =>
    cases h with
    | nil => simp [isPrefixL]
    | cons b bs =>
      rw [isPrefixL]
      simp only [Bool.and_eq_true, beq_iff_eq, ih, List.cons_append]
      constructor
      · rintro ⟨rfl, t, rfl⟩
        exact ⟨t, rfl⟩
      · rintro ⟨t, ht⟩
        injection ht with h1 h2
        exact ⟨h1.symm, t, h2⟩

theorem containsSub_iff (n h : Str) : containsSub n h = true ↔ ∃ p t, h = p ++ n ++ t := by
  induction h with
  | nil =>
    rw [containsSub, isPrefixL_iff]
    constructor
    · rintro ⟨t, ht⟩
      exact ⟨[], t, by simpa using ht⟩
    · rintro ⟨p, t, hp⟩
      have h1 := List.append_eq_nil.mp hp.symm
      have h2 := List.append_eq_nil.mp h1.1
      exact ⟨[], by simp [h2.2]⟩
  | cons x xs ih =>
    rw [containsSub]
    simp only [Bool.or_eq_true, isPrefixL_iff, ih]
    constructor
    · rintro (⟨t, ht⟩ | ⟨p, t, hp⟩)
      · exact ⟨[], t, by simpa using ht⟩
      · exact ⟨x :: p, t, by simp [hp]⟩
    · rintro ⟨p, t, hp⟩
      cases p with
      | nil => exact Or.inl ⟨t, by simpa using hp⟩
      | cons y ys =>
        injection hp with h1 h2
        exact Or.inr ⟨ys, t, h2⟩

theorem containsSub_trans {a b c : Str} (h1 : containsSub a b = true)
    (h2 : containsSub b c = true) : containsSub a c = true := by
  rw [containsSub_iff] at h1 h2 ⊢
  obtain ⟨p1, t1, rfl⟩ := h1
  obtain ⟨p2, t2, rfl⟩ := h2
  exact ⟨p2 ++ p1, t1 ++ t2, by simp⟩

theorem containsSub_append_pat (n p t : Str) : containsSub n (p ++ n ++ t) = true :=
  (containsSub_iff n _).mpr ⟨p, t, rfl⟩

theorem toNat_ofNat_small (n : Nat) (h : n < 0xd800) : (Char.ofNat n).toNat = n := by
  have hv : n.isValidChar := Or.inl h
  simp [Char.ofNat, hv, Char.ofNatAux, Char.toNat, UInt32.toNat, BitVec.toNat_ofNatLt]

theorem lowerChar_idem (c : Char) : lowerChar (lowerChar c) = lowerChar c := by
  by_cases h : 65 ≤ c.toNat ∧ c.toNat ≤ 90
  · have h32 : c.toNat + 32 < 0xd800 := by omega
    have hn : (Char.ofNat (c.toNat + 32)).toNat = c.toNat + 32 := toNat_ofNat_small _ h32
    have h1 : lowerChar c = Char.ofNat (c.toNat + 32) := by rw [lowerChar, if_pos h]
    rw [h1]
    simp only [lowerChar, hn]
    rw [if_neg (by omega)]
  · have h1 : lowerChar c = c := by rw [lowerChar, if_neg h]
    rw [h1]
    exact h1

theorem lowerStr_idem (s : Str) : lowerStr (lowerStr s) = lowerStr s := by
  induction s with
  | nil => rfl
  | cons c cs ih =>
    simp only [lowerStr, List.map_cons] at ih ⊢
    rw [lowerChar_idem, ih]

theorem lowerStr_append (a b : Str) : lowerStr (a ++ b) = lowerStr a ++ lowerStr b := by
  simp [lowerStr]

/-! ### The loop state, characterized -/

/-- Entries of the table whose keyword fires on `text`, in declaration
order: exactly the entries the loop at app.py lines 108-118 acts on. -/
def matchedEntries (text : Str) : List Entry :=
  SYMPTOM_DATABASE.filter (fun e => containsSub e.keyword text)

theorem mem_insertCond (acc : List Str) (x c : Str) :
    c ∈ insertCond acc x ↔ c ∈ acc ∨ c = x := by
  rw [insertCond]
  split
  · rename_i hx
    constructor
    · exact Or.inl
    · rintro (hc | rfl)
      · exact hc
      · exact hx
  · simp

theorem mem_updateConds (cs acc : List Str) (c : Str) :
    c ∈ updateConds acc cs ↔ c ∈ acc ∨ c ∈ cs := by
  induction cs generalizing acc with
  | nil => simp [updateConds]
  | cons x xs ih =>
    have hc : updateConds acc (x :: xs) = updateConds (insertCond acc x) xs := rfl
    rw [hc, ih, mem_insertCond]
    simp [List.mem_cons]
    tauto

theorem insertCond_nodup (acc : List Str) (x : Str) (h : acc.Nodup) :
    (insertCond acc x).Nodup := by
  rw [insertCond]
  split
  · exact h
  · rename_i hx
    rw [List.nodup_append]
    refine ⟨h, List.nodup_singleton x, ?_⟩
    intro a ha hax
    rw [List.mem_singleton] at hax
    subst hax
    exact hx ha

theorem updateConds_nodup (cs : List Str) :
    ∀ acc : List Str, acc.Nodup → (updateConds acc cs).Nodup := by
  induction cs with
  | nil => intro acc h; exact h
  | cons x xs ih =>
    intro acc h
    have hc : updateConds acc (x :: xs) = updateConds (insertCond acc x) xs := rfl
    rw [hc]
    exact ih _ (insertCond_nodup acc x h)

theorem foldl_step_conditions (text : Str) (l : List Entry) (st : LoopState) (c : Str) :
    c ∈ (l.foldl (step text) st).all_conditions ↔
      c ∈ st.all_conditions ∨
        ∃ e, e ∈ l ∧ containsSub e.keyword text = true ∧ c ∈ e.conditions := by
  induction l generalizing st with
  | nil => simp
  | cons e es ih =>
    rw [List.foldl_cons]
    by_cases he : containsSub e.keyword text = true
    · rw [step, if_pos he, ih]
      dsimp only
      rw [mem_updateConds]
      constructor
      · rintro ((hc | hc) | ⟨f, hf, hct, hc⟩)
        · exact Or.inl hc
        · exact Or.inr ⟨e, List.mem_cons_self e es, he, hc⟩
        · exact Or.inr ⟨f, List.mem_cons_of_mem e hf, hct, hc⟩
      · rintro (hc | ⟨f, hf, hct, hc⟩)
        · exact Or.inl (Or.inl hc)
        · rcases List.mem_cons.mp hf with rfl | hmem
          · exact Or.inl (Or.inr hc)
          · exact Or.inr ⟨f, hmem, hct, hc⟩
    · rw [step, if_neg he, ih]
      constructor
      · rintro (hc | ⟨f, hf, hct, hc⟩)
        · exact Or.inl hc
        · exact Or.inr ⟨f, List.mem_cons_of_mem e hf, hct, hc⟩
      · rintro (hc | ⟨f, hf, hct, hc⟩)
        · exact Or.inl hc
        · rcases List.mem_cons.mp hf with rfl | hmem
          · exact absurd hct he
          · exact Or.inr ⟨f, hmem, hct, hc⟩

theorem foldl_step_advice (text : Str) (l : List Entry) (st : LoopState) :
    (l.foldl (step text) st).all_advice =
      st.all_advice ++ (l.filter (fun e => containsSub e.keyword text)).map Entry.advice := by
  induction l generalizing st with
  | nil => simp
  | cons e es ih =>
    rw [List.foldl_cons]
    by_cases he : containsSub e.keyword text = true
    · rw [step, if_pos he, ih]
      dsimp only
      rw [List.filter_cons]
      simp [he]
    · have he' : containsSub e.keyword text = false := by simpa using he
      rw [step, if_neg he, ih, List.filter_cons]
      simp [he']

theorem foldl_step_urgent (text : Str) (l : List Entry) (st : LoopState) :
    (l.foldl (step text) st).is_urgent =
      (st.is_urgent || l.any (fun e => containsSub e.keyword text && e.urgent)) := by
  induction l generalizing st with
  | nil => simp
  | cons e es ih =>
    rw [List.foldl_cons]
    by_cases he : containsSub e.keyword text = true
    · rw [step, if_pos he, ih]
      dsimp only
      rw [List.any_cons, he]
      simp [Bool.or_assoc]
    · rw [step, if_neg he, ih, List.any_cons]
      have he' : containsSub e.keyword text = false := by simpa using he
      rw [he']
      simp

theorem foldl_step_nodup (text : Str) (l : List Entry) :
    ∀ st : LoopState, st.all_conditions.Nodup →
      ((l.foldl (step text) st).all_conditions).Nodup := by
  induction l with
  | nil => intro st h; exact h
  | cons e es ih =>
    intro st h
    rw [List.foldl_cons, step]
    split
    · exact ih _ (updateConds_nodup _ _ h)
    · exact ih _ h

/-! ### Facts about the table, by computation -/

theorem db_conditions_ne_nil : ∀ e ∈ SYMPTOM_DATABASE, e.conditions ≠ [] := by decide

theorem db_advice_ne_nil : ∀ e ∈ SYMPTOM_DATABASE, e.advice ≠ [] := by decide

theorem fallback_cond_not_in_db :
    ∀ e ∈ SYMPTOM_DATABASE, strL "General Consultation Recommended" ∉ e.conditions := by decide

/-! ### The matcher, characterized -/

/-- The loop state after the whole loop at app.py lines 108-118 has run. -/
def finalState (text : Str) : LoopState :=
  SYMPTOM_DATABASE.foldl (step text) ⟨[], [], false⟩

theorem analyze_symptoms_def (s : Str) :
    analyze_symptoms s =
      (if (finalState (lowerStr s)).all_conditions = [] then fallbackResult
       else { conditions := (finalState (lowerStr s)).all_conditions
            , advice := joinSpace ((finalState (lowerStr s)).all_advice)
            , urgent := (finalState (lowerStr s)).is_urgent }) := rfl

theorem mem_finalState (text : Str) (c : Str) :
    c ∈ (finalState text).all_conditions ↔
      ∃ e, e ∈ SYMPTOM_DATABASE ∧ containsSub e.keyword text = true ∧ c ∈ e.conditions := by
  rw [finalState, foldl_step_conditions]
  simp

theorem finalState_advice (text : Str) :
    (finalState text).all_advice = (matchedEntries text).map Entry.advice := by
  rw [finalState, foldl_step_advice]
  rfl

theorem finalState_urgent (text : Str) :
    (finalState text).is_urgent =
      SYMPTOM_DATABASE.any (fun e => containsSub e.keyword text && e.urgent) := by
  rw [finalState, foldl_step_urgent]
  rfl

theorem finalState_nodup (text : Str) : ((finalState text).all_conditions).Nodup :=
  foldl_step_nodup text SYMPTOM_DATABASE _ List.nodup_nil

theorem matched_nil_iff (text : Str) :
    matchedEntries text = [] ↔
      ∀ e ∈ SYMPTOM_DATABASE, ¬containsSub e.keyword text = true := by
  rw [matchedEntries, List.filter_eq_nil_iff]

theorem matched_ne_nil_iff (text : Str) :
    matchedEntries text ≠ [] ↔
      ∃ e, e ∈ SYMPTOM_DATABASE ∧ containsSub e.keyword text = true := by
  rw [Ne, matched_nil_iff]
  push_neg
  simp

theorem finalState_empty_iff (text : Str) :
    (finalState text).all_conditions = [] ↔ matchedEntries text = [] := by
  constructor
  · intro h
    rw [matched_nil_iff]
    intro e heDB he
    rcases List.exists_mem_of_ne_nil e.conditions (db_conditions_ne_nil e heDB) with ⟨c, hc⟩
    have : c ∈ (finalState text).all_conditions := (mem_finalState text c).mpr ⟨e, heDB, he, hc⟩
    rw [h] at this
    exact List.not_mem_nil c this
  · intro h
    rw [matched_nil_iff] at h
    rw [List.eq_nil_iff_forall_not_mem]
    intro c hc
    rcases (mem_finalState text c).mp hc with ⟨e, heDB, he, _⟩
    exact h e heDB he

theorem analyze_matched {s : Str} (h : matchedEntries (lowerStr s) ≠ []) :
    analyze_symptoms s =
      { conditions := (finalState (lowerStr s)).all_conditions
      , advice := joinSpace ((matchedEntries (lowerStr s)).map Entry.advice)
      , urgent := (finalState (lowerStr s)).is_urgent } := by
  have hne : (finalState (lowerStr s)).all_conditions ≠ [] :=
    fun hc => h ((finalState_empty_iff (lowerStr s)).mp hc)
  rw [analyze_symptoms_def, if_neg hne, finalState_advice]

theorem analyze_unmatched {s : Str} (h : matchedEntries (lowerStr s) = []) :
    analyze_symptoms s = fallbackResult := by
  rw [analyze_symptoms_def, if_pos ((finalState_empty_iff (lowerStr s)).mpr h)]

theorem analyze_mem_conditions {s : Str} (h : matchedEntries (lowerStr s) ≠ []) (c : Str) :
    c ∈ (analyze_symptoms s).conditions ↔
      ∃ e, e ∈ SYMPTOM_DATABASE ∧ containsSub e.keyword (lowerStr s) = true ∧
        c ∈ e.conditions := by
  rw [analyze_matched h]
  exact mem_finalState (lowerStr s) c

theorem analyze_urgent_eq {s : Str} (h : matchedEntries (lowerStr s) ≠ []) :
    (analyze_symptoms s).urgent =
      SYMPTOM_DATABASE.any (fun e => containsSub e.keyword (lowerStr s) && e.urgent) := by
  rw [analyze_matched h]
  exact finalState_urgent (lowerStr s)

theorem analyze_ne_fallback {s : Str} (h : matchedEntries (lowerStr s) ≠ []) :
    analyze_symptoms s ≠ fallbackResult := by
  rw [analyze_matched h]
  intro heq
  have hc : (finalState (lowerStr s)).all_conditions = [strL "General Consultation Recommended"] :=
    congrArg AnalysisResult.conditions heq
  have hmem : strL "General Consultation Recommended" ∈ (finalState (lowerStr s)).all_conditions := by
    rw [hc]
    exact List.mem_singleton_self _
  rcases (mem_finalState (lowerStr s) _).mp hmem with ⟨e, heDB, _, hce⟩
  exact fallback_cond_not_in_db e heDB hce

theorem analyze_fallback_iff (s : Str) :
    analyze_symptoms s = fallbackResult ↔ matchedEntries (lowerStr s) = [] := by
  constructor
  · intro h
    by_contra hne
    exact analyze_ne_fallback hne h
  · exact analyze_unmatched

theorem analyze_mono (s₁ s₂ : Str)
    (hsub : containsSub (lowerStr s₁) (lowerStr s₂) = true)
    (h1 : analyze_symptoms s₁ ≠ fallbackResult) :
    analyze_symptoms s₂ ≠ fallbackResult ∧
      (∀ c, c ∈ (analyze_symptoms s₁).conditions → c ∈ (analyze_symptoms s₂).conditions) ∧
      ((analyze_symptoms s₁).urgent = true → (analyze_symptoms s₂).urgent = true) := by
  have hm1 : matchedEntries (lowerStr s₁) ≠ [] :=
    fun h => h1 ((analyze_fallback_iff s₁).mpr h)
  have hstep : ∀ e : Entry, containsSub e.keyword (lowerStr s₁) = true →
      containsSub e.keyword (lowerStr s₂) = true :=
    fun e he => containsSub_trans he hsub
  have hm2 : matchedEntries (lowerStr s₂) ≠ [] := by
    rcases (matched_ne_nil_iff (lowerStr s₁)).mp hm1 with ⟨e, heDB, he⟩
    exact (matched_ne_nil_iff (lowerStr s₂)).mpr ⟨e, heDB, hstep e he⟩
  refine ⟨analyze_ne_fallback hm2, ?_, ?_⟩
  · intro c hc
    rcases (analyze_mem_conditions hm1 c).mp hc with ⟨e, heDB, he, hce⟩
    exact (analyze_mem_conditions hm2 c).mpr ⟨e, heDB, hstep e he, hce⟩
  · intro hu
    rw [analyze_urgent_eq hm1] at hu
    rw [analyze_urgent_eq hm2]
    rcases List.any_eq_true.mp hu with ⟨e, heDB, hpe⟩
    rw [Bool.and_eq_true] at hpe
    exact List.any_eq_true.mpr ⟨e, heDB, by rw [Bool.and_eq_true]; exact ⟨hstep e hpe.1, hpe.2⟩⟩

/-! ### The HTTP adapter around the matcher (app.py lines 148-207) -/

/-- A JSON value, as `request.get_json()` can produce for a field of the
request body. -/
inductive JVal where
  | jstr (s : Str)
  | jnum (n : Int)
  | jbool (b : Bool)
  | jnull
  | jarr (elems : List JVal)
  | jobj (fields : List (Str × JVal))

/-- Lookup of a key in a JSON object, modelling `'input' not in data` and
`data['input']` (Python dict keys are unique). -/
def lookupKey (k : Str) : List (Str × JVal) → Option JVal
  | [] => none
  | (k', v) :: rest => if k' = k then some v else lookupKey k rest

/-- Whitespace as `str.strip()` removes in the ASCII range. -/
def isPySpace (c : Char) : Bool :=
  c == ' ' || c == '\t' || c == '\n' || c == '\r' || c.toNat == 11 || c.toNat == 12

/-- Python's `symptom_input.strip()` (app.py line 184). -/
def stripStr (s : Str) : Str :=
  ((s.dropWhile isPySpace).reverse.dropWhile isPySpace).reverse

/-- The two response shapes the validation code of `check_symptoms` can
produce: 200 with an `AnalysisResult`, or 400 with an error message. -/
inductive HttpResponse where
  | ok (result : AnalysisResult)
  | badRequest (error : Str)

def missingInputMsg : Str := strL "Missing \x27input\x27 field in request body"

def notStringMsg : Str := strL "Input must be a string"

def emptyInputMsg : Str := strL "Input cannot be empty"

/-- The `POST /check-symptoms` handler (app.py lines 148-198), with the
request body as an optional JSON object (`none` models a request carrying
no JSON object) and the matcher passed as a parameter, so that
independence of the response from the matcher states that the matcher is
never invoked.  `if not data` treats the empty dict as falsy. -/
def check_symptoms (matcher : Str → AnalysisResult)
    (data : Option (List (Str × JVal))) : HttpResponse :=
  match data with
  | none => .badRequest missingInputMsg
  | some d =>
    if d.isEmpty then .badRequest missingInputMsg
    else
      match lookupKey (strL "input") d with
      | none => .badRequest missingInputMsg
      | some (JVal.jstr s) =>
          if stripStr s = [] then .badRequest emptyInputMsg
          else .ok (matcher s)
      | some _ => .badRequest notStringMsg

theorem joinSpace_cons_ne_nil (a : Str) (l : List Str) (ha : a ≠ []) :
    joinSpace (a :: l) ≠ [] := by
  cases l with
  | nil => simpa [joinSpace] using ha
  | cons b bs =>
    rw [joinSpace]
    simp

theorem db_nodup : SYMPTOM_DATABASE.Nodup := by decide

theorem eq_singleton_of_unique {α : Type} {l : List α} {a : α} (hn : l.Nodup)
    (ha : a ∈ l) (hu : ∀ x ∈ l, x = a) : l = [a] := by
  cases l with
  | nil => cases ha
  | cons x t =>
    have hx : x = a := hu x (List.mem_cons_self x t)
    subst hx
    cases t with
    | nil => rfl
    | cons y u =>
      have hy : y = x := hu y (List.mem_cons_of_mem x (List.mem_cons_self y u))
      subst hy
      rw [List.nodup_cons] at hn
      exact absurd (List.mem_cons_self y u) hn.1

/-! ### The claims -/

/-- C1: for every string input whose lowercased form contains no table
keyword as a substring, `analyze_symptoms` returns exactly the fixed
fallback result (conditions = ["General Consultation Recommended"], the
fixed consult-a-provider advice string, urgent = false). -/
theorem C1_no_match_fallback (s : Str)
    (h : ∀ e ∈ SYMPTOM_DATABASE, ¬containsSub e.keyword (lowerStr s) = true) :
    analyze_symptoms s = fallbackResult :=
  analyze_unmatched ((matched_nil_iff (lowerStr s)).mpr h)

theorem C1_witness :
    (∀ e ∈ SYMPTOM_DATABASE,
        ¬containsSub e.keyword (lowerStr (strL "purple spots on my elbow")) = true) ∧
      analyze_symptoms (strL "purple spots on my elbow") = fallbackResult :=
  ⟨by decide, C1_no_match_fallback (strL "purple spots on my elbow") (by decide)⟩

/-- C2: for every string input whose lowercased form contains exactly one
table keyword as a substring, `analyze_symptoms` returns that entry's
condition list (as a set), that entry's advice string exactly, and that
entry's urgent flag. -/
theorem C2_single_match (s : Str) (e : Entry) (heDB : e ∈ SYMPTOM_DATABASE)
    (hm : containsSub e.keyword (lowerStr s) = true)
    (huniq : ∀ f ∈ SYMPTOM_DATABASE, containsSub f.keyword (lowerStr s) = true → f = e) :
    (∀ c, c ∈ (analyze_symptoms s).conditions ↔ c ∈ e.conditions) ∧
      (analyze_symptoms s).advice = e.advice ∧
      (analyze_symptoms s).urgent = e.urgent := by
  have hne : matchedEntries (lowerStr s) ≠ [] :=
    (matched_ne_nil_iff (lowerStr s)).mpr ⟨e, heDB, hm⟩
  have hsingle : matchedEntries (lowerStr s) = [e] := by
    apply eq_singleton_of_unique (db_nodup.filter _)
    · exact List.mem_filter.mpr ⟨heDB, hm⟩
    · intro x hx
      rcases List.mem_filter.mp hx with ⟨hxDB, hxm⟩
      exact huniq x hxDB hxm
  refine ⟨?_, ?_, ?_⟩
  · intro c
    rw [analyze_mem_conditions hne c]
    constructor
    · rintro ⟨f, hfDB, hfm, hcf⟩
      rw [huniq f hfDB hfm] at hcf
      exact hcf
    · intro hc
      exact ⟨e, heDB, hm, hc⟩
  · rw [analyze_matched hne]
    dsimp only
    rw [hsingle, List.map_singleton]
    rfl
  · rw [analyze_urgent_eq hne]
    cases hu : e.urgent with
    | false =>
      rw [List.any_eq_false]
      intro f hf
      by_cases hcf : containsSub f.keyword (lowerStr s) = true
      · have hfe : f = e := huniq f hf hcf
        subst hfe
        simp [hcf, hu]
      · have hcf' : containsSub f.keyword (lowerStr s) = false := by simpa using hcf
        simp [hcf']
    | true =>
      exact List.any_eq_true.mpr ⟨e, heDB, by rw [Bool.and_eq_true]; exact ⟨hm, hu⟩⟩

theorem C2_witness :
    migraineEntry ∈ SYMPTOM_DATABASE ∧
      containsSub migraineEntry.keyword (lowerStr (strL "I have a migraine")) = true ∧
      ((∀ c, c ∈ (analyze_symptoms (strL "I have a migraine")).conditions ↔
          c ∈ migraineEntry.conditions) ∧
        (analyze_symptoms (strL "I have a migraine")).advice = migraineEntry.advice ∧
        (analyze_symptoms (strL "I have a migraine")).urgent = migraineEntry.urgent) :=
  ⟨by decide, by decide,
    C2_single_match (strL "I have a migraine") migraineEntry (by decide) (by decide) (by decide)⟩

/-- C3: whenever at least one table entry's keyword is a substring of the
lowercased input, the returned advice is the space-joined concatenation of
every matched entry's advice in table declaration order, and the returned
conditions are the union of the matched entries' condition lists with
duplicates collapsed to a single occurrence. -/
theorem C3_matched_shape (s : Str) (h : matchedEntries (lowerStr s) ≠ []) :
    (analyze_symptoms s).advice =
        joinSpace ((matchedEntries (lowerStr s)).map Entry.advice) ∧
      (∀ c, c ∈ (analyze_symptoms s).conditions ↔
        ∃ e, e ∈ matchedEntries (lowerStr s) ∧ c ∈ e.conditions) ∧
      ((analyze_symptoms s).conditions).Nodup := by
  refine ⟨?_, ?_, ?_⟩
  · rw [analyze_matched h]
  · intro c
    rw [analyze_mem_conditions h c]
    constructor
    · rintro ⟨e, heDB, he, hc⟩
      exact ⟨e, List.mem_filter.mpr ⟨heDB, he⟩, hc⟩
    · rintro ⟨e, hem, hc⟩
      rcases List.mem_filter.mp hem with ⟨heDB, he⟩
      exact ⟨e, heDB, he, hc⟩
  · rw [analyze_matched h]
    exact finalState_nodup (lowerStr s)

theorem C3_witness :
    matchedEntries (lowerStr (strL "fever and cough")) ≠ [] ∧
      ((analyze_symptoms (strL "fever and cough")).advice =
          joinSpace ((matchedEntries (lowerStr (strL "fever and cough"))).map Entry.advice) ∧
        (∀ c, c ∈ (analyze_symptoms (strL "fever and cough")).conditions ↔
          ∃ e, e ∈ matchedEntries (lowerStr (strL "fever and cough")) ∧ c ∈ e.conditions) ∧
        ((analyze_symptoms (strL "fever and cough")).conditions).Nodup) :=
  ⟨by decide, C3_matched_shape (strL "fever and cough") (by decide)⟩

/-- C4, counterexample: the input "headache and migraine and chest pain"
contains the two non-urgent keywords "headache" and "migraine", so the
claim's equation demands urgent = false OR false = false, but the returned
urgent flag is true (the also-matching "chest pain" entry is urgent). -/
theorem C4_counterexample :
    containsSub headacheEntry.keyword
        (lowerStr (strL "headache and migraine and chest pain")) = true ∧
      containsSub migraineEntry.keyword
        (lowerStr (strL "headache and migraine and chest pain")) = true ∧
      (headacheEntry.urgent || migraineEntry.urgent) = false ∧
      (analyze_symptoms (strL "headache and migraine and chest pain")).urgent = true := by
  decide

/-- C4, amended: for every input whose lowercased form contains two table
keywords K1 and K2 as substrings, the returned conditions are a superset of
the union of K1's and K2's condition lists, and the returned urgent flag is
true whenever urgent(K1) OR urgent(K2) is true (other matching keywords can
still force urgency, so the OR bounds the flag from below rather than
determining it). -/
theorem C4_union_amended (s : Str) (e₁ e₂ : Entry)
    (h₁ : e₁ ∈ SYMPTOM_DATABASE) (h₂ : e₂ ∈ SYMPTOM_DATABASE)
    (hm₁ : containsSub e₁.keyword (lowerStr s) = true)
    (hm₂ : containsSub e₂.keyword (lowerStr s) = true) :
    (∀ c, c ∈ e₁.conditions ∨ c ∈ e₂.conditions → c ∈ (analyze_symptoms s).conditions) ∧
      ((e₁.urgent || e₂.urgent) = true → (analyze_symptoms s).urgent = true) := by
  have hne : matchedEntries (lowerStr s) ≠ [] :=
    (matched_ne_nil_iff (lowerStr s)).mpr ⟨e₁, h₁, hm₁⟩
  constructor
  · intro c hc
    rcases hc with hc | hc
    · exact (analyze_mem_conditions hne c).mpr ⟨e₁, h₁, hm₁, hc⟩
    · exact (analyze_mem_conditions hne c).mpr ⟨e₂, h₂, hm₂, hc⟩
  · intro hu
    rw [analyze_urgent_eq hne]
    rw [Bool.or_eq_true] at hu
    rcases hu with hu | hu
    · exact List.any_eq_true.mpr ⟨e₁, h₁, by rw [Bool.and_eq_true]; exact ⟨hm₁, hu⟩⟩
    · exact List.any_eq_true.mpr ⟨e₂, h₂, by rw [Bool.and_eq_true]; exact ⟨hm₂, hu⟩⟩

theorem C4_witness :
    chestPainEntry ∈ SYMPTOM_DATABASE ∧ feverEntry ∈ SYMPTOM_DATABASE ∧
      containsSub chestPainEntry.keyword (lowerStr (strL "chest pain and fever")) = true ∧
      containsSub feverEntry.keyword (lowerStr (strL "chest pain and fever")) = true ∧
      ((∀ c, c ∈ chestPainEntry.conditions ∨ c ∈ feverEntry.conditions →
          c ∈ (analyze_symptoms (strL "chest pain and fever")).conditions) ∧
        ((chestPainEntry.urgent || feverEntry.urgent) = true →
          (analyze_symptoms (strL "chest pain and fever")).urgent = true)) :=
  ⟨by decide, by decide, by decide, by decide,
    C4_union_amended (strL "chest pain and fever") chestPainEntry feverEntry
      (by decide) (by decide) (by decide) (by decide)⟩

/-- C5, counterexample: for s = "verfe" the doubled string "verfeverfe"
contains "fever" across the copy boundary, so analyze(s) is the fallback
while analyze(s+s) reports the fever conditions: the condition sets are not
identical (here "Flu" separates them), refuting the claim's universally
quantified identity. -/
theorem C5_counterexample :
    strL "Flu" ∈ (analyze_symptoms (strL "verfe" ++ strL "verfe")).conditions ∧
      strL "Flu" ∉ (analyze_symptoms (strL "verfe")).conditions := by
  decide

/-- C5, amended: doubling the input can only add matches (a keyword can
newly span the copy boundary), never remove one: whenever analyze(s) is not
the fallback, analyze(s+s) is not the fallback either, the condition set of
analyze(s) is contained in that of analyze(s+s), and the urgent flag of
analyze(s) implies that of analyze(s+s). -/
theorem C5_dup_amended (s : Str) (h : analyze_symptoms s ≠ fallbackResult) :
    analyze_symptoms (s ++ s) ≠ fallbackResult ∧
      (∀ c, c ∈ (analyze_symptoms s).conditions →
        c ∈ (analyze_symptoms (s ++ s)).conditions) ∧
      ((analyze_symptoms s).urgent = true → (analyze_symptoms (s ++ s)).urgent = true) := by
  have hsub : containsSub (lowerStr s) (lowerStr (s ++ s)) = true := by
    rw [lowerStr_append]
    exact (containsSub_iff _ _).mpr ⟨[], lowerStr s, by simp⟩
  exact analyze_mono s (s ++ s) hsub h

theorem C5_witness :
    analyze_symptoms (strL "fever") ≠ fallbackResult ∧
      (analyze_symptoms (strL "fever" ++ strL "fever") ≠ fallbackResult ∧
        (∀ c, c ∈ (analyze_symptoms (strL "fever")).conditions →
          c ∈ (analyze_symptoms (strL "fever" ++ strL "fever")).conditions) ∧
        ((analyze_symptoms (strL "fever")).urgent = true →
          (analyze_symptoms (strL "fever" ++ strL "fever")).urgent = true)) :=
  ⟨by decide, C5_dup_amended (strL "fever") (by decide)⟩

/-- C6: matching is case-insensitive: analyze(s) equals analyze applied to
the lowercase of s, for every string; in particular analyze("CHEST PAIN")
and analyze("chest pain") are equal. -/
theorem C6_case_insensitive :
    (∀ s : Str, analyze_symptoms s = analyze_symptoms (lowerStr s)) ∧
      analyze_symptoms (strL "CHEST PAIN") = analyze_symptoms (strL "chest pain") := by
  constructor
  · intro s
    rw [analyze_symptoms_def, analyze_symptoms_def, lowerStr_idem]
  · decide

/-- C7: `analyze_symptoms` is a total function (its Lean type returns an
`AnalysisResult` for every string, with no error case); the empty string
matches no table entry and yields the fallback result. -/
theorem C7_total_empty_fallback :
    (∀ e ∈ SYMPTOM_DATABASE, ¬containsSub e.keyword (lowerStr []) = true) ∧
      analyze_symptoms [] = fallbackResult := by
  decide

/-- C9: matching is monotone under substring containment: if the lowercase
of s1 is a substring of the lowercase of s2 and analyze(s1) is not the
fallback, then analyze(s2) is not the fallback, analyze(s1)'s condition set
is contained in analyze(s2)'s, and analyze(s1)'s urgency implies
analyze(s2)'s. -/
theorem C9_monotone (s₁ s₂ : Str)
    (hsub : containsSub (lowerStr s₁) (lowerStr s₂) = true)
    (h1 : analyze_symptoms s₁ ≠ fallbackResult) :
    analyze_symptoms s₂ ≠ fallbackResult ∧
      (∀ c, c ∈ (analyze_symptoms s₁).conditions → c ∈ (analyze_symptoms s₂).conditions) ∧
      ((analyze_symptoms s₁).urgent = true → (analyze_symptoms s₂).urgent = true) :=
  analyze_mono s₁ s₂ hsub h1

theorem C9_witness :
    containsSub (lowerStr (strL "fever")) (lowerStr (strL "a FEVER and cough")) = true ∧
      analyze_symptoms (strL "fever") ≠ fallbackResult ∧
      (analyze_symptoms (strL "a FEVER and cough") ≠ fallbackResult ∧
        (∀ c, c ∈ (analyze_symptoms (strL "fever")).conditions →
          c ∈ (analyze_symptoms (strL "a FEVER and cough")).conditions) ∧
        ((analyze_symptoms (strL "fever")).urgent = true →
          (analyze_symptoms (strL "a FEVER and cough")).urgent = true)) :=
  ⟨by decide, by decide, C9_monotone (strL "fever") (strL "a FEVER and cough") (by decide) (by decide)⟩

/-- C10: in both the matched and the fallback case, the result of
`analyze_symptoms` has a non-empty, duplicate-free conditions list and a
non-empty advice string. -/
theorem C10_result_invariant (s : Str) :
    (analyze_symptoms s).conditions ≠ [] ∧
      ((analyze_symptoms s).conditions).Nodup ∧
      (analyze_symptoms s).advice ≠ [] := by
  by_cases h : matchedEntries (lowerStr s) = []
  · rw [analyze_unmatched h]
    refine ⟨by decide, by decide, by decide⟩
  · rw [analyze_matched h]
    dsimp only
    refine ⟨?_, finalState_nodup (lowerStr s), ?_⟩
    · intro hc
      exact h ((finalState_empty_iff (lowerStr s)).mp hc)
    · cases hm : matchedEntries (lowerStr s) with
      | nil => exact absurd hm h
      | cons m rest =>
        rw [List.map_cons]
        apply joinSpace_cons_ne_nil
        have hmm : m ∈ matchedEntries (lowerStr s) := by
          rw [hm]
          exact List.mem_cons_self m rest
        have hmDB : m ∈ SYMPTOM_DATABASE := (List.mem_filter.mp hmm).1
        exact db_advice_ne_nil m hmDB

theorem check_symptoms_some (m : Str → AnalysisResult) (p : Str × JVal)
    (rest : List (Str × JVal)) :
    check_symptoms m (some (p :: rest)) =
      (match lookupKey (strL "input") (p :: rest) with
       | none => HttpResponse.badRequest missingInputMsg
       | some (JVal.jstr s) =>
           if stripStr s = [] then HttpResponse.badRequest emptyInputMsg
           else HttpResponse.ok (m s)
       | some _ => HttpResponse.badRequest notStringMsg) := rfl

/-- C8: for every POST /check-symptoms request body that is missing the
'input' field, whose 'input' value is not a string, or whose 'input' value
is blank after trimming whitespace, the handler answers 400 with the
field-specific error message, and the response does not depend on the
matcher at all: `analyze_symptoms` is never invoked for such a request. -/
theorem C8_validation (data : Option (List (Str × JVal)))
    (h : data = none ∨
      ∃ d, data = some d ∧
        (lookupKey (strL "input") d = none ∨
          (∃ v, lookupKey (strL "input") d = some v ∧ ∀ s, v ≠ JVal.jstr s) ∨
          (∃ s, lookupKey (strL "input") d = some (JVal.jstr s) ∧ stripStr s = []))) :
    ∃ msg, (msg = missingInputMsg ∨ msg = notStringMsg ∨ msg = emptyInputMsg) ∧
      ∀ matcher : Str → AnalysisResult,
        check_symptoms matcher data = HttpResponse.badRequest msg := by
  rcases h with rfl | ⟨d, rfl, hcase⟩
  · exact ⟨missingInputMsg, Or.inl rfl, fun _ => rfl⟩
  · cases d with
    | nil => exact ⟨missingInputMsg, Or.inl rfl, fun _ => rfl⟩
    | cons p rest =>
      rcases hcase with hl | ⟨v, hv, hns⟩ | ⟨s, hl, hb⟩
      · refine ⟨missingInputMsg, Or.inl rfl, fun m => ?_⟩
        rw [check_symptoms_some, hl]
      · refine ⟨notStringMsg, Or.inr (Or.inl rfl), fun m => ?_⟩
        rw [check_symptoms_some, hv]
        cases v with
        | jstr s => exact absurd rfl (hns s)
        | jnum n => rfl
        | jbool b => rfl
        | jnull => rfl
        | jarr elems => rfl
        | jobj fields => rfl
      · refine ⟨emptyInputMsg, Or.inr (Or.inr rfl), fun m => ?_⟩
        rw [check_symptoms_some, hl]
        exact if_pos hb

theorem C8_witness :
    ∃ msg, (msg = missingInputMsg ∨ msg = notStringMsg ∨ msg = emptyInputMsg) ∧
      ∀ matcher : Str → AnalysisResult,
        check_symptoms matcher (some []) = HttpResponse.badRequest msg :=
  C8_validation (some []) (Or.inr ⟨[], rfl, Or.inl rfl⟩)
